import Mathlib

/-!
Shallow embedding of the selection-synchronization logic of the
`CurrencySelector` component, which exists in two variants in the sources:

* variant V1 (checkbox variant, `src/unnamed/part_001`): uses the helper
  `computeAllState` for the derived flag, a header checkbox with an
  `onToggleAll` handler, an effect syncing the parent when the form's
  `currencies` field changes, and an effect reflecting the parent's
  `selectedCurrencies` prop into the form;
* variant V2 (switch variant, `src/unnamed/part_002`): same structure, but
  the derived flag is computed as a plain length equality
  `currencies.length === options.length` (no non-emptiness guard) both in
  the internal-sync effect (`allSelectedNow`) and in the prop-reflection
  effect (`allSelected`); the toggle is `handleSwitchChange`.

The component state is modelled by `FormState`: the form container's
`currencies` field, its `selectAllSwitch` boolean field, and the parent's
`selectedCurrencies` state (written through the `setSelectedCurrencies`
setter).  Each handler/effect is a function from state to state paired with
a `Writes` record counting the `setValue` calls on `currencies`, the
`setValue` calls on `selectAllSwitch`, and the `setSelectedCurrencies`
calls it performs.
-/

/-- Result of `computeAllState` (part_001 lines 30-37): the tri-state
rendering data of the select-all control. -/
structure AllState where
  checked : Bool
  indeterminate : Bool
deriving DecidableEq, Repr

/-- Embedding of `computeAllState` (part_001 lines 30-37):
`checked = sel > 0 && sel === total`, `indeterminate = sel > 0 && sel < total`
where `total = all.length` and `sel = selected.length`. -/
def computeAllState (selected all : List String) : AllState :=
  let total := all.length
  let sel := selected.length
  { checked := decide (sel > 0) && decide (sel = total)
    indeterminate := decide (sel > 0) && decide (sel < total) }

/-- The synchronizer's observable state: the form's `currencies` field, the
form's `selectAllSwitch` field, and the parent-owned `selectedCurrencies`
state (the value most recently passed to `setSelectedCurrencies`, or the
initial prop). -/
structure FormState where
  currencies : List String
  selectAllSwitch : Bool
  selectedCurrencies : List String
deriving DecidableEq, Repr

/-- Write counts of one handler/effect invocation: `setValue("currencies", _)`
calls, `setValue("selectAllSwitch", _)` calls, and `setSelectedCurrencies`
calls. -/
structure Writes where
  currencyWrites : Nat
  flagWrites : Nat
  externalCalls : Nat
deriving DecidableEq, Repr

/-- Embedding of the `useForm` defaultValues and `allSelectedInitial`
(part_001 lines 44-51, part_002 lines 43-52, identical in both variants):
`currencies` starts as the `selectedCurrencies` prop and `selectAllSwitch`
starts as `selectedCurrencies.length === options.length`. -/
def initState (options selectedCurrencies : List String) : FormState :=
  { currencies := selectedCurrencies
    selectAllSwitch := selectedCurrencies.length == options.length
    selectedCurrencies := selectedCurrencies }

/-- An input event of the synchronizer: a user edit of the multi-select
(`fromUser`), a parent-driven change of the `selectedCurrencies` prop
(`fromParent`), or a click on the select-all control (`toggle`). -/
inductive Event where
  | fromUser (x : List String)
  | fromParent (x : List String)
  | toggle (b : Bool)
deriving DecidableEq, Repr

namespace V1

/-- Embedding of the internal-sync effect of the checkbox variant
(part_001 lines 103-116): `setSelectedCurrencies(arr)` unconditionally
(the `Array.isArray` guard is vacuous here since the field is typed as a
list), then `setValue("selectAllSwitch", checked)` only when
`computeAllState(arr, options).checked` differs from the watched flag. -/
def internalSyncEffect (options : List String) (s : FormState) : FormState × Writes :=
  let arr := s.currencies
  let s1 : FormState := { s with selectedCurrencies := arr }
  let checked := (computeAllState arr options).checked
  if checked ≠ s1.selectAllSwitch then
    ({ s1 with selectAllSwitch := checked },
     { currencyWrites := 0, flagWrites := 1, externalCalls := 1 })
  else
    (s1, { currencyWrites := 0, flagWrites := 0, externalCalls := 1 })

/-- The settled state after React re-runs the internal-sync effect
(part_001 lines 103-116) on the current form values.  One pass suffices:
a second pass changes nothing, since the effect neither changes
`currencies` nor leaves the flag different from the derived value. -/
def settle (options : List String) (s : FormState) : FormState :=
  (internalSyncEffect options s).1

/-- `onInternalChange x`: the user edit puts `x` into the form's
`currencies` field, and the internal-sync effect (part_001 lines 103-116)
fires on it.  The `Writes` component counts only the effect's own calls;
the triggering user edit is an input, not a synchronizer write. -/
def onInternalChange (options x : List String) (s : FormState) : FormState × Writes :=
  internalSyncEffect options { s with currencies := x }

/-- `onExternalChange x`: the parent's `selectedCurrencies` prop becomes
`x`, and the prop-reflection effect (part_001 lines 119-131) fires:
`setValue("currencies", x)` unconditionally, then
`setValue("selectAllSwitch", computeAllState(x, options).checked)`
unconditionally.  No `setSelectedCurrencies` call is made by this effect. -/
def onExternalChange (options x : List String) (s : FormState) : FormState × Writes :=
  let s0 : FormState := { s with selectedCurrencies := x }
  let s1 : FormState := { s0 with currencies := x }
  let checked := (computeAllState x options).checked
  ({ s1 with selectAllSwitch := checked },
   { currencyWrites := 1, flagWrites := 1, externalCalls := 0 })

/-- Embedding of `onToggleAll` (part_001 lines 141-156):
`setValue("selectAllSwitch", nextChecked)` unconditionally; then if
`nextChecked`, `setValue("currencies", [...options])` and
`setSelectedCurrencies(options)`, else `setValue("currencies", [])` and
`setSelectedCurrencies([])`. -/
def onToggleAll (options : List String) (nextChecked : Bool) (s : FormState) :
    FormState × Writes :=
  let s1 : FormState := { s with selectAllSwitch := nextChecked }
  if nextChecked then
    ({ s1 with currencies := options, selectedCurrencies := options },
     { currencyWrites := 1, flagWrites := 1, externalCalls := 1 })
  else
    ({ s1 with currencies := [], selectedCurrencies := [] },
     { currencyWrites := 1, flagWrites := 1, externalCalls := 1 })

/-- One settled transition of the checkbox variant: the event's handler
runs, then the internal-sync effect re-runs on the new form values. -/
def step (options : List String) (s : FormState) : Event → FormState
  | .fromUser x => settle options (onInternalChange options x s).1
  | .fromParent x => settle options (onExternalChange options x s).1
  | .toggle b => settle options (onToggleAll options b s).1

/-- The settled state after mounting with props `(options, sel)` and then
processing the event sequence `evs`. -/
def run (options sel : List String) (evs : List Event) : FormState :=
  evs.foldl (step options) (settle options (initState options sel))

end V1

namespace V2

/-- Embedding of the internal-sync effect of the switch variant
(part_002 lines 134-157): `setSelectedCurrencies(watchedCurrencies)`
(the `Array.isArray` guard is vacuous here), then
`allSelectedNow = watchedCurrencies.length === options.length` and a
conditional `setValue("selectAllSwitch", allSelectedNow)` when it differs
from the watched flag.  Note: no non-emptiness guard on `allSelectedNow`. -/
def internalSyncEffect (options : List String) (s : FormState) : FormState × Writes :=
  let s1 : FormState := { s with selectedCurrencies := s.currencies }
  let allSelectedNow : Bool := s.currencies.length == options.length
  if allSelectedNow ≠ s1.selectAllSwitch then
    ({ s1 with selectAllSwitch := allSelectedNow },
     { currencyWrites := 0, flagWrites := 1, externalCalls := 1 })
  else
    (s1, { currencyWrites := 0, flagWrites := 0, externalCalls := 1 })

/-- The settled state after React re-runs the internal-sync effect
(part_002 lines 134-157) on the current form values. -/
def settle (options : List String) (s : FormState) : FormState :=
  (internalSyncEffect options s).1

/-- `onInternalChange x` for the switch variant: the user edit puts `x`
into the `currencies` field and the internal-sync effect
(part_002 lines 134-157) fires on it. -/
def onInternalChange (options x : List String) (s : FormState) : FormState × Writes :=
  internalSyncEffect options { s with currencies := x }

/-- `onExternalChange x` for the switch variant (part_002 lines 160-172):
`setValue("currencies", selectedCurrencies)` unconditionally, then
`allSelected = selectedCurrencies.length === options.length` and
`setValue("selectAllSwitch", allSelected)` unconditionally. -/
def onExternalChange (options x : List String) (s : FormState) : FormState × Writes :=
  let s0 : FormState := { s with selectedCurrencies := x }
  let s1 : FormState := { s0 with currencies := x }
  let allSelected : Bool := x.length == options.length
  ({ s1 with selectAllSwitch := allSelected },
   { currencyWrites := 1, flagWrites := 1, externalCalls := 0 })

/-- Embedding of `handleSwitchChange` (part_002 lines 71-96): if checked,
`setSelectedCurrencies(options)` and `setValue("currencies", [...options])`,
else `setSelectedCurrencies([])` and `setValue("currencies", [])`; in both
cases `setValue("selectAllSwitch", isChecked)` afterwards. -/
def handleSwitchChange (options : List String) (isChecked : Bool) (s : FormState) :
    FormState × Writes :=
  if isChecked then
    ({ s with selectedCurrencies := options, currencies := options,
              selectAllSwitch := isChecked },
     { currencyWrites := 1, flagWrites := 1, externalCalls := 1 })
  else
    ({ s with selectedCurrencies := [], currencies := [],
              selectAllSwitch := isChecked },
     { currencyWrites := 1, flagWrites := 1, externalCalls := 1 })

/-- One settled transition of the switch variant. -/
def step (options : List String) (s : FormState) : Event → FormState
  | .fromUser x => settle options (onInternalChange options x s).1
  | .fromParent x => settle options (onExternalChange options x s).1
  | .toggle b => settle options (handleSwitchChange options b s).1

/-- The settled state after mounting with props `(options, sel)` and then
processing the event sequence `evs`. -/
def run (options sel : List String) (evs : List Event) : FormState :=
  evs.foldl (step options) (settle options (initState options sel))

end V2

/-- C7: for every pair `(selected, all)`, `computeAllState` returns
`checked = (selected.length > 0 && selected.length == all.length)` and
`indeterminate = (selected.length > 0 && selected.length < all.length)`. -/
theorem computeAllState_spec (selected all : List String) :
    ((computeAllState selected all).checked
        ↔ selected.length > 0 ∧ selected.length = all.length)
    ∧ ((computeAllState selected all).indeterminate
        ↔ selected.length > 0 ∧ selected.length < all.length) := by
  simp [computeAllState]

/-- C8: at most one of the two booleans returned by `computeAllState` is
true, and both are false when `selected` is empty. -/
theorem computeAllState_triState (selected all : List String) :
    (¬ ((computeAllState selected all).checked = true
        ∧ (computeAllState selected all).indeterminate = true))
    ∧ (computeAllState [] all).checked = false
    ∧ (computeAllState [] all).indeterminate = false := by
  refine ⟨?_, by simp [computeAllState], by simp [computeAllState]⟩
  simp only [computeAllState, Bool.and_eq_true, decide_eq_true_eq]
  rintro ⟨⟨-, hEq⟩, -, hLt⟩
  omega

/-- C10: at mount, `selectAllSwitch` is `selectedCurrencies.length ==
options.length` with no non-emptiness guard; in particular for
`options = []` and `selectedCurrencies = []` the initial flag is `true`. -/
theorem initState_flag (options selectedCurrencies : List String) :
    ((initState options selectedCurrencies).selectAllSwitch
        ↔ selectedCurrencies.length = options.length)
    ∧ (initState [] []).selectAllSwitch = true := by
  constructor
  · simp [initState]
  · rfl

/-- C1 counterexample: with `options = ["USD", "EUR"]` and the internal
`currencies` field already equal (element-wise) to `["USD"]`, the
prop-reflection effect run on `x = ["USD"]` still performs writes: it is
not the zero-write operation the claim describes (and the same holds in
the switch variant). -/
theorem onExternalChange_no_echo_counterexample :
    (V1.onExternalChange ["USD", "EUR"] ["USD"]
        { currencies := ["USD"], selectAllSwitch := false,
          selectedCurrencies := ["USD"] }).2
      ≠ { currencyWrites := 0, flagWrites := 0, externalCalls := 0 }
    ∧ (V2.onExternalChange ["USD", "EUR"] ["USD"]
        { currencies := ["USD"], selectAllSwitch := false,
          selectedCurrencies := ["USD"] }).2
      ≠ { currencyWrites := 0, flagWrites := 0, externalCalls := 0 } := by
  decide

/-- C1 (amended): `onExternalChange x` performs no element-wise comparison
at all: in both variants every invocation performs exactly one silent
`setValue` on `currencies` and one silent `setValue` on the all-flag, and
no direct `setSelectedCurrencies` call, even when `x` equals the current
internal `currencies` field. -/
theorem onExternalChange_writes (options x : List String) (s : FormState) :
    (V1.onExternalChange options x s).2
      = { currencyWrites := 1, flagWrites := 1, externalCalls := 0 }
    ∧ (V2.onExternalChange options x s).2
      = { currencyWrites := 1, flagWrites := 1, externalCalls := 0 } :=
  ⟨rfl, rfl⟩

/-- C3 counterexample: with `options = ["USD"]` and the internal state
already at `currencies = ["USD"]`, `selectAllSwitch = true` (exactly the
state `toggleAll(true)` requests), the toggle handler still performs its
internal writes: its write record is not the external push alone, so the
implementation does not compare before writing. -/
theorem toggleAll_redundant_write_counterexample :
    (V1.onToggleAll ["USD"] true
        { currencies := ["USD"], selectAllSwitch := true,
          selectedCurrencies := ["USD"] }).2
      ≠ { currencyWrites := 0, flagWrites := 0, externalCalls := 1 }
    ∧ (V2.handleSwitchChange ["USD"] true
        { currencies := ["USD"], selectAllSwitch := true,
          selectedCurrencies := ["USD"] }).2
      ≠ { currencyWrites := 0, flagWrites := 0, externalCalls := 1 } := by
  decide

/-- C3 (amended): every invocation of the toggle-all handler performs
exactly one direct `setSelectedCurrencies` call, and unconditionally
performs one `setValue` on `currencies` and one `setValue` on the
all-flag, with no compare-before-write, in both variants and for both
toggle directions. -/
theorem toggleAll_writes (options : List String) (b : Bool) (s : FormState) :
    (V1.onToggleAll options b s).2
      = { currencyWrites := 1, flagWrites := 1, externalCalls := 1 }
    ∧ (V2.handleSwitchChange options b s).2
      = { currencyWrites := 1, flagWrites := 1, externalCalls := 1 } := by
  cases b <;> simp [V1.onToggleAll, V2.handleSwitchChange]

/-- C4 evaluation at the failing input: mounting the switch variant with
`options = []`, `selectedCurrencies = []` and toggling all on leaves the
selection empty but settles with `selectAllSwitch = true`, while the
checkbox variant (whose `computeAllState` carries the non-emptiness
guard) settles the same scenario with `selectAllSwitch = false`. -/
theorem toggleAll_empty_options_eval :
    (V2.settle [] (V2.handleSwitchChange [] true (initState [] [])).1).currencies = []
    ∧ (V2.settle [] (V2.handleSwitchChange [] true (initState [] [])).1).selectAllSwitch
        = true
    ∧ (V1.settle [] (V1.onToggleAll [] true (initState [] [])).1).currencies = []
    ∧ (V1.settle [] (V1.onToggleAll [] true (initState [] [])).1).selectAllSwitch
        = false := by
  decide

/-- C5: on `options = [a, b, c]`, toggling all on settles with internal and
parent selection `[a, b, c]`, tri-state `checked = true`,
`indeterminate = false` (and all-flag `true`); toggling all off settles
with empty internal and parent selection, `checked = false`,
`indeterminate = false` (and all-flag `false`).  Shown for the checkbox
variant, with the selection and flag parts also shown for the switch
variant. -/
theorem toggleAll_correct (a b c : String) (s : FormState) :
    ((V1.settle [a, b, c] (V1.onToggleAll [a, b, c] true s).1).currencies = [a, b, c]
      ∧ (V1.settle [a, b, c] (V1.onToggleAll [a, b, c] true s).1).selectedCurrencies
          = [a, b, c]
      ∧ computeAllState
          (V1.settle [a, b, c] (V1.onToggleAll [a, b, c] true s).1).currencies [a, b, c]
          = { checked := true, indeterminate := false }
      ∧ (V1.settle [a, b, c] (V1.onToggleAll [a, b, c] true s).1).selectAllSwitch = true)
    ∧ ((V1.settle [a, b, c] (V1.onToggleAll [a, b, c] false s).1).currencies = []
      ∧ (V1.settle [a, b, c] (V1.onToggleAll [a, b, c] false s).1).selectedCurrencies = []
      ∧ computeAllState
          (V1.settle [a, b, c] (V1.onToggleAll [a, b, c] false s).1).currencies [a, b, c]
          = { checked := false, indeterminate := false }
      ∧ (V1.settle [a, b, c] (V1.onToggleAll [a, b, c] false s).1).selectAllSwitch = false)
    ∧ ((V2.settle [a, b, c] (V2.handleSwitchChange [a, b, c] true s).1).currencies
          = [a, b, c]
      ∧ (V2.settle [a, b, c] (V2.handleSwitchChange [a, b, c] true s).1).selectedCurrencies
          = [a, b, c]
      ∧ (V2.settle [a, b, c] (V2.handleSwitchChange [a, b, c] true s).1).selectAllSwitch
          = true)
    ∧ ((V2.settle [a, b, c] (V2.handleSwitchChange [a, b, c] false s).1).currencies = []
      ∧ (V2.settle [a, b, c] (V2.handleSwitchChange [a, b, c] false s).1).selectedCurrencies
          = []
      ∧ (V2.settle [a, b, c] (V2.handleSwitchChange [a, b, c] false s).1).selectAllSwitch
          = false) := by
  simp [V1.settle, V1.internalSyncEffect, V1.onToggleAll, V2.settle,
    V2.internalSyncEffect, V2.handleSwitchChange, computeAllState]

/-- C6: `onInternalChange` is idempotent in both variants: running it a
second time with the same `x` leaves the state of the first run unchanged,
and the second run performs no internal writes (the flag comparison
short-circuits), only the unconditional `setSelectedCurrencies` call. -/
theorem onInternalChange_idempotent (options x : List String) (s : FormState) :
    ((V1.onInternalChange options x (V1.onInternalChange options x s).1).1
        = (V1.onInternalChange options x s).1
      ∧ (V1.onInternalChange options x (V1.onInternalChange options x s).1).2
        = { currencyWrites := 0, flagWrites := 0, externalCalls := 1 })
    ∧ ((V2.onInternalChange options x (V2.onInternalChange options x s).1).1
        = (V2.onInternalChange options x s).1
      ∧ (V2.onInternalChange options x (V2.onInternalChange options x s).1).2
        = { currencyWrites := 0, flagWrites := 0, externalCalls := 1 }) := by
  constructor
  · by_cases h : (computeAllState x options).checked = s.selectAllSwitch <;>
      simp [V1.onInternalChange, V1.internalSyncEffect, h]
  · by_cases h : (x.length == options.length) = s.selectAllSwitch <;>
      simp [V2.onInternalChange, V2.internalSyncEffect, h]

/-- The internal-sync effect of the checkbox variant never modifies the
`currencies` field. -/
theorem V1.checkboxSync_currencies (options : List String) (s : FormState) :
    (V1.internalSyncEffect options s).1.currencies = s.currencies := by
  unfold V1.internalSyncEffect
  dsimp only
  split <;> rfl

/-- Settling the checkbox variant keeps `currencies` and forces the flag to
`computeAllState(currencies, options).checked`. -/
theorem V1.checkboxSettle_spec (options : List String) (s : FormState) :
    (V1.settle options s).currencies = s.currencies
    ∧ (V1.settle options s).selectAllSwitch
        = (computeAllState s.currencies options).checked := by
  unfold V1.settle V1.internalSyncEffect
  dsimp only
  split
  · exact ⟨rfl, rfl⟩
  · next h => exact ⟨rfl, (not_ne_iff.mp h).symm⟩

/-- Any settled state of the checkbox variant has its flag equal to the
`checked` component of `computeAllState` on its own `currencies`. -/
theorem V1.checkboxSettle_flag (options : List String) (s : FormState) :
    (V1.settle options s).selectAllSwitch
      = (computeAllState (V1.settle options s).currencies options).checked := by
  obtain ⟨h1, h2⟩ := V1.checkboxSettle_spec options s
  rw [h1, h2]

/-- Folding any event sequence from a state whose flag agrees with
`computeAllState` preserves that agreement (checkbox variant). -/
theorem V1.checkboxFoldl_flag (options : List String) (evs : List Event) (s : FormState)
    (h : s.selectAllSwitch = (computeAllState s.currencies options).checked) :
    ((evs.foldl (V1.step options) s).selectAllSwitch)
      = (computeAllState ((evs.foldl (V1.step options) s).currencies) options).checked := by
  induction evs generalizing s with
  | nil => exact h
  | cons e rest ih =>
    simp only [List.foldl_cons]
    apply ih
    cases e <;> exact V1.checkboxSettle_flag options _

/-- Every reachable settled state of the checkbox variant has
`selectAllSwitch = computeAllState(currencies, options).checked`. -/
theorem V1.checkboxRun_flag (options sel : List String) (evs : List Event) :
    (V1.run options sel evs).selectAllSwitch
      = (computeAllState (V1.run options sel evs).currencies options).checked :=
  V1.checkboxFoldl_flag options evs _ (V1.checkboxSettle_flag options _)

/-- The internal-sync effect of the switch variant never modifies the
`currencies` field. -/
theorem V2.switchSync_currencies (options : List String) (s : FormState) :
    (V2.internalSyncEffect options s).1.currencies = s.currencies := by
  unfold V2.internalSyncEffect
  dsimp only
  split <;> rfl

/-- Settling the switch variant keeps `currencies` and forces the flag to
the plain length equality `currencies.length == options.length`. -/
theorem V2.switchSettle_spec (options : List String) (s : FormState) :
    (V2.settle options s).currencies = s.currencies
    ∧ (V2.settle options s).selectAllSwitch
        = (s.currencies.length == options.length) := by
  unfold V2.settle V2.internalSyncEffect
  dsimp only
  split
  · exact ⟨rfl, rfl⟩
  · next h => exact ⟨rfl, (not_ne_iff.mp h).symm⟩

/-- Any settled state of the switch variant has its flag equal to the
length equality on its own `currencies`. -/
theorem V2.switchSettle_flag (options : List String) (s : FormState) :
    (V2.settle options s).selectAllSwitch
      = ((V2.settle options s).currencies.length == options.length) := by
  obtain ⟨h1, h2⟩ := V2.switchSettle_spec options s
  rw [h1, h2]

/-- Folding any event sequence from a state whose flag agrees with the
length equality preserves that agreement (switch variant). -/
theorem V2.switchFoldl_flag (options : List String) (evs : List Event) (s : FormState)
    (h : s.selectAllSwitch = (s.currencies.length == options.length)) :
    ((evs.foldl (V2.step options) s).selectAllSwitch)
      = (((evs.foldl (V2.step options) s).currencies.length == options.length)) := by
  induction evs generalizing s with
  | nil => exact h
  | cons e rest ih =>
    simp only [List.foldl_cons]
    apply ih
    cases e <;> exact V2.switchSettle_flag options _

/-- Every reachable settled state of the switch variant has
`selectAllSwitch = (currencies.length == options.length)` — with no
non-emptiness guard. -/
theorem V2.switchRun_flag (options sel : List String) (evs : List Event) :
    (V2.run options sel evs).selectAllSwitch
      = ((V2.run options sel evs).currencies.length == options.length) :=
  V2.switchFoldl_flag options evs _ (V2.switchSettle_flag options _)

/-- C2 counterexample: in the switch variant mounted with `options = []`
and reset through the prop to `[]`, the settled state has
`selectAllSwitch = true` while `selected.length > 0 && selected.length ==
available.length` is false — the claimed invariant fails on the code. -/
theorem settled_flag_counterexample :
    ¬ ((V2.run [] [] [Event.fromParent []]).selectAllSwitch
        ↔ (V2.run [] [] [Event.fromParent []]).currencies.length > 0
          ∧ (V2.run [] [] [Event.fromParent []]).currencies.length
              = ([] : List String).length) := by
  decide

/-- C2 (amended): when `options` is non-empty, every state reachable by
any sequence of user edits, prop changes, and toggles has, once settled,
`selectAllSwitch = (currencies.length > 0 && currencies.length ==
options.length)` — in both variants.  (Without the non-emptiness
hypothesis the checkbox variant still satisfies this, but the switch
variant tracks the plain length equality and reports `true` on
`options = []` with an empty selection.) -/
theorem settled_flag_invariant (options sel : List String) (evs : List Event)
    (h : options ≠ []) :
    ((V1.run options sel evs).selectAllSwitch
        ↔ (V1.run options sel evs).currencies.length > 0
          ∧ (V1.run options sel evs).currencies.length = options.length)
    ∧ ((V2.run options sel evs).selectAllSwitch
        ↔ (V2.run options sel evs).currencies.length > 0
          ∧ (V2.run options sel evs).currencies.length = options.length) := by
  have hopt : 0 < options.length := List.length_pos.mpr h
  constructor
  · rw [V1.checkboxRun_flag]
    simp [computeAllState]
  · rw [V2.switchRun_flag]
    simp only [beq_iff_eq]
    exact ⟨fun he => ⟨by omega, he⟩, fun hp => hp.2⟩

/-- Witness for C2 (amended) at `options = ["USD"]`, `sel = []`, no
events. -/
theorem settled_flag_invariant_witness :
    ((V1.run ["USD"] [] []).selectAllSwitch
        ↔ (V1.run ["USD"] [] []).currencies.length > 0
          ∧ (V1.run ["USD"] [] []).currencies.length = ["USD"].length)
    ∧ ((V2.run ["USD"] [] []).selectAllSwitch
        ↔ (V2.run ["USD"] [] []).currencies.length > 0
          ∧ (V2.run ["USD"] [] []).currencies.length = ["USD"].length) :=
  settled_flag_invariant ["USD"] [] [] (by decide)

/-- The lists an event is allowed to inject: a user pick comes from the
option list, a parent prop value is assumed consistent with `options`
(the caller-consistency assumption of the design), and a toggle carries
no list. -/
def Event.inputsFrom (options : List String) : Event → Prop
  | .fromUser x => x ⊆ options
  | .fromParent x => x ⊆ options
  | .toggle _ => True

/-- C9 counterexample: the code does not filter stale items — a parent
prop change to `["EUR"]` under `options = ["USD"]` settles with `"EUR"`
in the internal selection although it is not an element of the option
list. -/
theorem subset_invariant_counterexample :
    "EUR" ∈ (V1.run ["USD"] [] [Event.fromParent ["EUR"]]).currencies
    ∧ "EUR" ∉ ["USD"] := by
  decide

/-- One step of the checkbox variant keeps the selection inside `options`
when the event's input lists come from `options`. -/
theorem V1.checkboxStep_subset (options : List String) (s : FormState) (e : Event)
    (he : e.inputsFrom options) :
    (V1.step options s e).currencies ⊆ options := by
  cases e with
  | fromUser x =>
    have : (V1.step options s (Event.fromUser x)).currencies = x := by
      simp [V1.step, V1.checkboxSettle_spec, V1.onInternalChange,
        V1.checkboxSync_currencies]
    rw [this]; exact he
  | fromParent x =>
    have : (V1.step options s (Event.fromParent x)).currencies = x := by
      simp [V1.step, V1.checkboxSettle_spec, V1.onExternalChange]
    rw [this]; exact he
  | toggle b =>
    cases b with
    | true =>
      have : (V1.step options s (Event.toggle true)).currencies = options := by
        simp [V1.step, V1.checkboxSettle_spec, V1.onToggleAll]
      rw [this]
      exact List.Subset.refl options
    | false =>
      have : (V1.step options s (Event.toggle false)).currencies = [] := by
        simp [V1.step, V1.checkboxSettle_spec, V1.onToggleAll]
      rw [this]; exact List.nil_subset options

/-- Folding an event sequence whose inputs come from `options`, from a
state whose selection is inside `options`, keeps the selection inside
`options` (checkbox variant). -/
theorem V1.checkboxFoldl_subset (options : List String) (evs : List Event) (s : FormState)
    (hs : s.currencies ⊆ options) (h : ∀ e ∈ evs, e.inputsFrom options) :
    ((evs.foldl (V1.step options) s).currencies) ⊆ options := by
  induction evs generalizing s with
  | nil => exact hs
  | cons e rest ih =>
    simp only [List.foldl_cons]
    exact ih (V1.step options s e)
      (V1.checkboxStep_subset options s e (h e (List.mem_cons_self e rest)))
      (fun e' he' => h e' (List.mem_cons_of_mem e he'))

/-- C9 (amended): under the design's caller-consistency assumption — the
initial `selectedCurrencies` prop and every list injected by an event are
drawn from `options` — every reachable settled state of the checkbox
variant keeps its internal selection a subset of `options`. -/
theorem subset_invariant (options sel : List String) (evs : List Event)
    (h0 : sel ⊆ options) (h : ∀ e ∈ evs, e.inputsFrom options) :
    (V1.run options sel evs).currencies ⊆ options := by
  unfold V1.run
  refine V1.checkboxFoldl_subset options evs _ ?_ h
  rw [(V1.checkboxSettle_spec options _).1]
  exact h0

/-- Witness for C9 (amended) at `options = ["USD", "EUR"]`,
`sel = ["USD"]`, a user pick of `["EUR"]` followed by a toggle-all. -/
theorem subset_invariant_witness :
    (V1.run ["USD", "EUR"] ["USD"]
        [Event.fromUser ["EUR"], Event.toggle true]).currencies
      ⊆ ["USD", "EUR"] :=
  subset_invariant ["USD", "EUR"] ["USD"] [Event.fromUser ["EUR"], Event.toggle true]
    (by decide)
    (by intro e he
        simp only [List.mem_cons, List.not_mem_nil, or_false] at he
        rcases he with h1 | h1
        · rw [h1]
          show (["EUR"] : List String) ⊆ ["USD", "EUR"]
          decide
        · rw [h1]; trivial)
